import Mathlib

/-!
Shallow embedding of the task-processing system
(`src/app/models.py`, `src/app/worker.py`, `src/app/main.py`, `src/app/config.py`).

Modelling conventions:
* `datetime.utcnow()` is an explicit `now : Nat` parameter.
* JSON text columns (`payload`, `result`) hold structured `JValue`s;
  `json.dumps` / `json.loads` are the identity at this level.
* A SQLAlchemy session over the `tasks` table is a `Store := List Task`;
  `session.commit()` of an in-flight record is `putTask` and additionally
  emits an `Event.commit` so that the order of persists, sleeps and queue
  enqueues is visible in a trace.
* `asyncio.Queue.put` is `Event.enqueue`; `asyncio.sleep` is `Event.sleep`.
* A fallible `session.commit()` (transient infrastructure error) is an
  `Option String` parameter: `none` = the commit succeeds, `some e` = the
  commit raises an exception whose `str(e)` is `e`.
-/

namespace TPS

/-- `TaskStatus` enum from `src/app/models.py`. -/
inductive TaskStatus where
  | PENDING
  | PROCESSING
  | COMPLETED
  | FAILED
  | RETRYING
deriving DecidableEq, Repr

/-- JSON values, covering the payloads and results the handlers build. -/
inductive JValue where
  | null : JValue
  | str : String → JValue
  | num : Int → JValue
  | obj : List (String × JValue) → JValue
deriving Repr

/-- Equality test for `JValue` (structural). -/
def JValue.beq : JValue → JValue → Bool
  | .null, .null => true
  | .str a, .str b => a == b
  | .num a, .num b => a == b
  | .obj a, .obj b => beqFields a b
  | _, _ => false
where
  beqFields : List (String × JValue) → List (String × JValue) → Bool
  | [], [] => true
  | (k₁, v₁) :: r₁, (k₂, v₂) :: r₂ => k₁ == k₂ && beq v₁ v₂ && beqFields r₁ r₂
  | _, _ => false

/-- Python's `dict.get(key)` / `dict.get(key, default)` on a JSON object. -/
def JValue.get (v : JValue) (key : String) (default : JValue := .null) : JValue :=
  match v with
  | .obj fields =>
      match fields.find? (fun kv => kv.1 == key) with
      | some kv => kv.2
      | none => default
  | _ => default

/-- `Task` row from `src/app/models.py`. -/
structure Task where
  id : Nat
  task_type : String
  payload : JValue
  status : TaskStatus
  result : Option JValue
  error_message : Option String
  retry_count : Nat
  created_at : Nat
  updated_at : Nat
  completed_at : Option Nat
deriving Repr

/-- `Settings` from `src/app/config.py` (defaults: pool 10, retries 3, delay 5). -/
structure Settings where
  WORKER_POOL_SIZE : Nat
  MAX_RETRIES : Nat
  RETRY_DELAY : Nat
deriving Repr

/-- The default configuration of `src/app/config.py`. -/
def defaultSettings : Settings :=
  { WORKER_POOL_SIZE := 10, MAX_RETRIES := 3, RETRY_DELAY := 5 }

/-- The persisted `tasks` table. -/
abbrev Store := List Task

/-- `select(Task).where(Task.id == task_id)` + `scalar_one_or_none()`. -/
def getTask (store : Store) (task_id : Nat) : Option Task :=
  List.find? (fun t => t.id = task_id) store

/-- Persisting an in-flight record: the row with the same primary key is
replaced (SQLAlchemy flushes mutations by primary key on commit). -/
def putTask (store : Store) (t : Task) : Store :=
  List.map (fun x => if x.id = t.id then t else x) store

/-- Observable effects of a worker, in program order. -/
inductive Event where
  | commit (t : Task)
  | enqueue (task_id : Nat)
  | sleep (secs : Nat)
deriving Repr

/-- `WorkerPool.handle_task_failure` (`src/app/worker.py` lines 150-174).
Takes the in-flight task `t` (with its in-memory mutations), the error
string, and returns the store after all commits plus the trace of effects.

```
task.retry_count += 1
task.error_message = error
task.updated_at = datetime.utcnow()
if task.retry_count < settings.MAX_RETRIES:
    task.status = TaskStatus.RETRYING
    await session.commit()
    await asyncio.sleep(settings.RETRY_DELAY)
    await self.task_queue.put(task.id)
    task.status = TaskStatus.PENDING
    await session.commit()
else:
    task.status = TaskStatus.FAILED
    await session.commit()
```
-/
def handle_task_failure (s : Settings) (store : Store) (t : Task) (error : String)
    (now : Nat) : Store × List Event :=
  let t₀ := { t with retry_count := t.retry_count + 1,
                     error_message := some error,
                     updated_at := now }
  if t₀.retry_count < s.MAX_RETRIES then
    let tRetrying := { t₀ with status := TaskStatus.RETRYING }
    let store₁ := putTask store tRetrying
    let tPending := { tRetrying with status := TaskStatus.PENDING }
    let store₂ := putTask store₁ tPending
    (store₂, [Event.commit tRetrying, Event.sleep s.RETRY_DELAY,
              Event.enqueue tRetrying.id, Event.commit tPending])
  else
    let tFailed := { t₀ with status := TaskStatus.FAILED }
    (putTask store tFailed, [Event.commit tFailed])

/-- `WorkerPool.execute_task` (`src/app/worker.py` lines 128-148): the
handler registry keyed on `task_type`; the sleeps are latency simulation
and carry no state. -/
def execute_task (task : Task) : JValue :=
  let payload := task.payload
  if task.task_type = "email" then
    .obj [("status", .str "email_sent"), ("to", payload.get "email")]
  else if task.task_type = "data_processing" then
    .obj [("status", .str "processed"), ("records", payload.get "count" (.num 100))]
  else if task.task_type = "report_generation" then
    .obj [("status", .str "generated"), ("report_id", .str ("RPT-" ++ toString task.id))]
  else
    .obj [("status", .str "completed"), ("data", payload)]

/-- `WorkerPool.process_task` (`src/app/worker.py` lines 92-126).

`outcome` is what `await self.execute_task(task)` does: `.ok r` = returns
`r`, `.error e` = raises an exception with message `e`. `commit₁` / `commit₂`
model the two `session.commit()` calls of the try-block (line 108 after
marking PROCESSING, line 120 after marking COMPLETED): `none` = success,
`some e` = the commit raises a transient store error `e`. Any exception in
the try-block lands in the `except` clause, which calls
`handle_task_failure` on the in-flight record as mutated so far. -/
def process_task (s : Settings) (store : Store) (task_id : Nat)
    (outcome : Except String JValue) (commit₁ commit₂ : Option String)
    (now : Nat) : Store × List Event :=
  match getTask store task_id with
  | none => (store, [])
  | some task =>
    if task.status ≠ TaskStatus.PENDING then (store, [])
    else
      let t₁ := { task with status := TaskStatus.PROCESSING, updated_at := now }
      match commit₁ with
      | some e => handle_task_failure s store t₁ e now
      | none =>
        let store₁ := putTask store t₁
        match outcome with
        | .error e =>
            let (store₂, evs) := handle_task_failure s store₁ t₁ e now
            (store₂, Event.commit t₁ :: evs)
        | .ok r =>
            let t₂ := { t₁ with status := TaskStatus.COMPLETED,
                                result := some r,
                                completed_at := some now,
                                updated_at := now }
            match commit₂ with
            | some e =>
                let (store₂, evs) := handle_task_failure s store₁ t₂ e now
                (store₂, Event.commit t₁ :: evs)
            | none =>
                (putTask store₁ t₂, [Event.commit t₁, Event.commit t₂])

/-- One polling pass of `WorkerPool.fetch_pending_tasks`
(`src/app/worker.py` lines 43-58): `SELECT ... WHERE status = PENDING
LIMIT pool_size * 2`, then each id is put on the queue. The pass only
reads the store, so it returns it unchanged together with the enqueued
identifiers in order. -/
def fetch_pending_tasks_pass (s : Settings) (store : Store) : Store × List Nat :=
  let tasks := (List.filter (fun t => t.status = TaskStatus.PENDING) store).take
                 (s.WORKER_POOL_SIZE * 2)
  (store, tasks.map (fun t => t.id))

/-- Result of the `DELETE /tasks/{task_id}` endpoint. -/
inductive DeleteResult where
  | notFound
  | rejected
  | deleted
deriving DecidableEq, Repr

/-- `delete_task` endpoint (`src/app/main.py` lines 231-252):

```
if not task: 404
if task.status in [TaskStatus.PENDING, TaskStatus.PROCESSING]: 400
await db.delete(task); await db.commit()
```
-/
def delete_task (store : Store) (task_id : Nat) : DeleteResult × Store :=
  match getTask store task_id with
  | none => (DeleteResult.notFound, store)
  | some task =>
    if task.status = TaskStatus.PENDING ∨ task.status = TaskStatus.PROCESSING then
      (DeleteResult.rejected, store)
    else
      (DeleteResult.deleted, List.filter (fun x => x.id ≠ task_id) store)

/-- A run of the engine on one shared store: each element is one worker
iteration `(task_id, handler outcome, now)` processed by `process_task`
with the store commits succeeding. -/
def runAttempts (s : Settings) (store : Store) :
    List (Nat × Except String JValue × Nat) → Store
  | [] => store
  | (tid, oc, now) :: rest =>
      runAttempts s (process_task s store tid oc none none now).1 rest

/-- Iterated failing attempts on a one-task store: `failN s t e now n` is
the persisted store after `n` worker iterations on task `t` in which the
handler raises `e` every time. -/
def failN (s : Settings) (t : Task) (e : String) (now : Nat) : Nat → Store
  | 0 => [t]
  | Nat.succ n => (process_task s (failN s t e now n) t.id (.error e) none none now).1

/-- The persisted task record at the moment of the first `enqueue` in an
event trace: the last record committed before it (`last` is the record
persisted before the trace began); `none` if the trace has no enqueue. -/
def persistedAtFirstEnqueue : List Event → Option Task → Option Task
  | [], _ => none
  | Event.commit t :: rest, _ => persistedAtFirstEnqueue rest (some t)
  | Event.enqueue _ :: _, last => last
  | Event.sleep _ :: rest, last => persistedAtFirstEnqueue rest last

/-! ### The claim phase of a worker, as interleavable micro-steps

`process_task`'s claim phase (lines 96-108) runs on an async scheduler and
suspends at the `SELECT` and at the `commit`, so two workers' phases can
interleave. A phase is either before its load, after its load (holding the
local `task` variable), proceeding (it passed the PENDING check, committed
PROCESSING and goes on to execute), or discarded (the line-102 check made
it return). -/
inductive ClaimPhase where
  | start
  | loaded (task : Option Task)
  | proceeding (task : Task)
  | discarded
deriving Repr

/-- One micro-step of a worker's claim phase against the shared store. -/
def claimStep (task_id : Nat) (now : Nat) : ClaimPhase × Store → ClaimPhase × Store
  | (ClaimPhase.start, store) => (ClaimPhase.loaded (getTask store task_id), store)
  | (ClaimPhase.loaded none, store) => (ClaimPhase.discarded, store)
  | (ClaimPhase.loaded (some t), store) =>
      if t.status ≠ TaskStatus.PENDING then (ClaimPhase.discarded, store)
      else
        let t₁ := { t with status := TaskStatus.PROCESSING, updated_at := now }
        (ClaimPhase.proceeding t₁, putTask store t₁)
  | (ClaimPhase.proceeding t, store) => (ClaimPhase.proceeding t, store)
  | (ClaimPhase.discarded, store) => (ClaimPhase.discarded, store)

/-- `proceeds p` iff the worker passed the claim and executes the task. -/
def ClaimPhase.proceeds : ClaimPhase → Bool
  | ClaimPhase.proceeding _ => true
  | _ => false

/-- Two workers racing to claim the same `task_id`: the schedule picks
which worker performs its next micro-step (`false` = worker A,
`true` = worker B). Returns both final phases and the store. -/
def runRace (task_id : Nat) (now : Nat) :
    List Bool → ClaimPhase × ClaimPhase × Store → ClaimPhase × ClaimPhase × Store
  | [], st => st
  | false :: rest, (pa, pb, store) =>
      let (pa', store') := claimStep task_id now (pa, store)
      runRace task_id now rest (pa', pb, store')
  | true :: rest, (pa, pb, store) =>
      let (pb', store') := claimStep task_id now (pb, store)
      runRace task_id now rest (pa, pb', store')

/-- The `completed_at` / `COMPLETED` coupling (claim C10's invariant). -/
def completedInv (t : Task) : Prop :=
  t.completed_at.isSome ↔ t.status = TaskStatus.COMPLETED

/-! ### Store lemmas -/

theorem mem_of_getTask {store : Store} {i : Nat} {t : Task}
    (h : getTask store i = some t) : t ∈ store :=
  List.mem_of_find?_eq_some h

theorem getTask_eq_id {store : Store} {i : Nat} {t : Task}
    (h : getTask store i = some t) : t.id = i := by
  have := List.find?_some h
  exact of_decide_eq_true this

theorem getTask_putTask_self {store : Store} {i : Nat} {t u : Task}
    (h : getTask store i = some t) (hu : u.id = i) :
    getTask (putTask store u) i = some u := by
  induction store with
  | nil => simp [getTask] at h
  | cons x xs ih =>
      by_cases hx : x.id = i
      · simp only [putTask, List.map_cons]
        rw [if_pos (hx.trans hu.symm)]
        unfold getTask
        rw [List.find?_cons_of_pos _ (by simp [hu])]
      · have h' : getTask xs i = some t := by
          unfold getTask at h
          rwa [List.find?_cons_of_neg _ (by simp [hx])] at h
        simp only [putTask, List.map_cons]
        rw [if_neg (fun hc => hx (hc.trans hu))]
        unfold getTask
        rw [List.find?_cons_of_neg _ (by simp [hx])]
        exact ih h'

theorem putTask_forall {store : Store} {u : Task} {P : Task → Prop}
    (h : ∀ x ∈ store, P x) (hu : P u) : ∀ x ∈ putTask store u, P x := by
  intro x hx
  simp only [putTask, List.mem_map] at hx
  obtain ⟨y, hy, hyx⟩ := hx
  by_cases hid : y.id = u.id
  · rw [if_pos hid] at hyx; exact hyx ▸ hu
  · rw [if_neg hid] at hyx; exact hyx ▸ h y hy

theorem getTask_singleton {t : Task} : getTask [t] t.id = some t := by
  simp [getTask, List.find?]

theorem putTask_singleton {t u : Task} (h : t.id = u.id) :
    putTask [t] u = [u] := by
  simp [putTask, h]

/-! ### Step lemmas: one worker iteration on a one-task store -/

theorem success_step (s : Settings) (u : Task) (r : JValue) (now tid : Nat)
    (hid : u.id = tid) (hu : u.status = TaskStatus.PENDING) :
    process_task s [u] tid (Except.ok r) none none now =
      ([{ u with status := TaskStatus.COMPLETED, result := some r,
                 completed_at := some now, updated_at := now }],
       [Event.commit { u with status := TaskStatus.PROCESSING, updated_at := now },
        Event.commit { u with status := TaskStatus.COMPLETED, result := some r,
                              completed_at := some now, updated_at := now }]) := by
  subst hid
  simp [process_task, getTask, putTask, List.find?, hu]

theorem fail_step_retry (s : Settings) (u : Task) (e : String) (now tid : Nat)
    (hid : u.id = tid) (hu : u.status = TaskStatus.PENDING)
    (hlt : u.retry_count + 1 < s.MAX_RETRIES) :
    process_task s [u] tid (Except.error e) none none now =
      ([{ u with status := TaskStatus.PENDING, retry_count := u.retry_count + 1,
                 error_message := some e, updated_at := now }],
       [Event.commit { u with status := TaskStatus.PROCESSING, updated_at := now },
        Event.commit { u with status := TaskStatus.RETRYING,
                              retry_count := u.retry_count + 1,
                              error_message := some e, updated_at := now },
        Event.sleep s.RETRY_DELAY,
        Event.enqueue tid,
        Event.commit { u with status := TaskStatus.PENDING,
                              retry_count := u.retry_count + 1,
                              error_message := some e, updated_at := now }]) := by
  subst hid
  simp [process_task, handle_task_failure, getTask, putTask, List.find?, hu, hlt]

theorem fail_step_terminal (s : Settings) (u : Task) (e : String) (now tid : Nat)
    (hid : u.id = tid) (hu : u.status = TaskStatus.PENDING)
    (hge : ¬ u.retry_count + 1 < s.MAX_RETRIES) :
    process_task s [u] tid (Except.error e) none none now =
      ([{ u with status := TaskStatus.FAILED, retry_count := u.retry_count + 1,
                 error_message := some e, updated_at := now }],
       [Event.commit { u with status := TaskStatus.PROCESSING, updated_at := now },
        Event.commit { u with status := TaskStatus.FAILED,
                              retry_count := u.retry_count + 1,
                              error_message := some e, updated_at := now }]) := by
  subst hid
  simp [process_task, handle_task_failure, getTask, putTask, List.find?, hu, hge]

/-- The persisted record of `t` after `n` handled retryable failures. -/
def pendAfter (t : Task) (e : String) (now : Nat) : Nat → Task
  | 0 => t
  | Nat.succ n => { t with status := TaskStatus.PENDING, retry_count := n + 1,
                           error_message := some e, updated_at := now }

theorem pendAfter_status {t : Task} {e : String} {now : Nat} {n : Nat}
    (ht : t.status = TaskStatus.PENDING) :
    (pendAfter t e now n).status = TaskStatus.PENDING := by
  cases n <;> simp [pendAfter, ht]

theorem pendAfter_retry_count {t : Task} {e : String} {now : Nat} {n : Nat}
    (h0 : t.retry_count = 0) : (pendAfter t e now n).retry_count = n := by
  cases n <;> simp [pendAfter, h0]

theorem failN_pend (s : Settings) (t : Task) (e : String) (now : Nat)
    (ht : t.status = TaskStatus.PENDING) (h0 : t.retry_count = 0) :
    ∀ n, n < s.MAX_RETRIES → failN s t e now n = [pendAfter t e now n] := by
  intro n
  induction n with
  | zero => intro _; rfl
  | succ m ih =>
      intro h
      have hm : m < s.MAX_RETRIES := Nat.lt_of_succ_lt h
      unfold failN
      rw [ih hm]
      have hid : (pendAfter t e now m).id = t.id := by cases m <;> rfl
      have hst := @pendAfter_status t e now m ht
      have hrc := @pendAfter_retry_count t e now m h0
      rw [fail_step_retry s (pendAfter t e now m) e now t.id hid hst
            (by rw [hrc]; exact h)]
      cases m with
      | zero => simp [pendAfter, h0]
      | succ k => simp [pendAfter]

/-- The persisted record of `t` after its `n`th failure was terminal. -/
def failedAfter (t : Task) (e : String) (now : Nat) (n : Nat) : Task :=
  { t with status := TaskStatus.FAILED, retry_count := n,
           error_message := some e, updated_at := now }

/-! ### Claim theorems -/

/-- C1: for a task whose handler fails on N = n+1 consecutive execution
attempts, after the Nth failure is handled the persisted `retry_count`
equals N and the status is FAILED iff N ≥ max_retries, else PENDING; and
when the failure is retryable the attempt's trace commits RETRYING,
persists, sleeps the retry delay, re-enqueues the task's id, and returns
the task to PENDING. -/
theorem retry_monotonicity (s : Settings) (t : Task) (e : String) (now n : Nat)
    (ht : t.status = TaskStatus.PENDING) (h0 : t.retry_count = 0)
    (hn : n + 1 ≤ s.MAX_RETRIES) :
    (∃ tN, getTask (failN s t e now (n + 1)) t.id = some tN ∧
       tN.retry_count = n + 1 ∧
       (tN.status = TaskStatus.FAILED ↔ s.MAX_RETRIES ≤ n + 1) ∧
       (n + 1 < s.MAX_RETRIES → tN.status = TaskStatus.PENDING)) ∧
    (n + 1 < s.MAX_RETRIES →
      ∃ tP tR tQ,
        (process_task s (failN s t e now n) t.id (Except.error e) none none now).2 =
          [Event.commit tP, Event.commit tR, Event.sleep s.RETRY_DELAY,
           Event.enqueue t.id, Event.commit tQ] ∧
        tR.status = TaskStatus.RETRYING ∧ tR.retry_count = n + 1 ∧
        tQ.status = TaskStatus.PENDING ∧ tQ.retry_count = n + 1) := by
  have hm : n < s.MAX_RETRIES := Nat.lt_of_succ_le hn
  have hpend := failN_pend s t e now ht h0 n hm
  have hid : (pendAfter t e now n).id = t.id := by cases n <;> rfl
  have hst := @pendAfter_status t e now n ht
  have hrc := @pendAfter_retry_count t e now n h0
  constructor
  · rcases Nat.lt_or_ge (n + 1) s.MAX_RETRIES with hlt | hge
    · refine ⟨pendAfter t e now (n + 1), ?_, ?_, ?_, ?_⟩
      · rw [failN_pend s t e now ht h0 (n + 1) hlt]
        exact getTask_singleton
      · exact pendAfter_retry_count h0
      · rw [pendAfter_status ht]
        simp [Nat.not_le.mpr hlt]
      · intro _; exact pendAfter_status ht
    · have heq : ¬ (pendAfter t e now n).retry_count + 1 < s.MAX_RETRIES := by
        rw [hrc]; exact Nat.not_lt.mpr hge
      refine ⟨failedAfter t e now (n + 1), ?_, ?_, ?_, ?_⟩
      · unfold failN
        rw [hpend, fail_step_terminal s (pendAfter t e now n) e now t.id hid hst heq]
        have hcollapse :
            ({ pendAfter t e now n with
                status := TaskStatus.FAILED,
                retry_count := (pendAfter t e now n).retry_count + 1,
                error_message := some e, updated_at := now } : Task) =
              failedAfter t e now (n + 1) := by
          cases n <;> simp [pendAfter, failedAfter, h0]
        rw [hcollapse]
        exact getTask_singleton
      · rfl
      · simp [failedAfter, hge]
      · intro hlt; exact absurd hlt (Nat.not_lt.mpr hge)
  · intro hlt
    rw [hpend]
    rw [fail_step_retry s (pendAfter t e now n) e now t.id hid hst
          (by rw [hrc]; exact hlt)]
    exact ⟨_, _, _, rfl, rfl, by simp [hrc], rfl, by simp [hrc]⟩

/-- A freshly submitted `"email"` task (status PENDING, retry_count 0). -/
def sampleTask : Task :=
  { id := 1, task_type := "email",
    payload := JValue.obj [("email", JValue.str "a@b.com")],
    status := TaskStatus.PENDING, result := none, error_message := none,
    retry_count := 0, created_at := 0, updated_at := 0, completed_at := none }

/-- C1 witness: under the default configuration (max_retries = 3), two
consecutive handler failures of a fresh task leave retry_count = 2,
status not FAILED but PENDING, and the second attempt's trace commits
RETRYING, sleeps, re-enqueues id 1 and commits PENDING. -/
theorem retry_monotonicity_witness :
    (∃ tN, getTask (failN defaultSettings sampleTask "boom" 7 2) sampleTask.id = some tN ∧
       tN.retry_count = 2 ∧
       (tN.status = TaskStatus.FAILED ↔ (3 : Nat) ≤ 2) ∧
       ((2 : Nat) < 3 → tN.status = TaskStatus.PENDING)) ∧
    ((2 : Nat) < 3 →
      ∃ tP tR tQ,
        (process_task defaultSettings (failN defaultSettings sampleTask "boom" 7 1)
            sampleTask.id (Except.error "boom") none none 7).2 =
          [Event.commit tP, Event.commit tR, Event.sleep 5,
           Event.enqueue sampleTask.id, Event.commit tQ] ∧
        tR.status = TaskStatus.RETRYING ∧ tR.retry_count = 2 ∧
        tQ.status = TaskStatus.PENDING ∧ tQ.retry_count = 2) :=
  retry_monotonicity defaultSettings sampleTask "boom" 7 1 rfl rfl (by decide)

/-- C6: an `"email"` task with payload `{"email":"a@b.com"}` whose
execution succeeds reaches terminal status COMPLETED with stored result
`{"status":"email_sent","to":"a@b.com"}` and a completion timestamp. -/
theorem email_scenario :
    ∃ tF, getTask (process_task defaultSettings [sampleTask] 1
        (Except.ok (execute_task sampleTask)) none none 7).1 1 = some tF ∧
      tF.status = TaskStatus.COMPLETED ∧
      tF.result = some (JValue.obj
        [("status", JValue.str "email_sent"), ("to", JValue.str "a@b.com")]) ∧
      tF.completed_at = some 7 :=
  ⟨_, rfl, rfl, rfl, rfl⟩

/-- C7: a Fetcher poll pass leaves the store unchanged, enqueues at most
`2 × pool_size` identifiers, and every enqueued identifier belongs to a
task that is PENDING in the store at query time. -/
theorem fetcher_frame (s : Settings) (store : Store) :
    (fetch_pending_tasks_pass s store).1 = store ∧
    (fetch_pending_tasks_pass s store).2.length ≤ 2 * s.WORKER_POOL_SIZE ∧
    ∀ i ∈ (fetch_pending_tasks_pass s store).2,
      ∃ t, t ∈ store ∧ t.id = i ∧ t.status = TaskStatus.PENDING := by
  refine ⟨rfl, ?_, ?_⟩
  · show (List.map _ (List.take _ _)).length ≤ _
    rw [List.length_map, List.length_take, Nat.mul_comm 2 s.WORKER_POOL_SIZE]
    exact Nat.min_le_left _ _
  · intro i hi
    simp only [fetch_pending_tasks_pass, List.mem_map] at hi
    obtain ⟨t, ht, rfl⟩ := hi
    have hf : t ∈ List.filter (fun t => decide (t.status = TaskStatus.PENDING)) store :=
      List.take_subset _ _ ht
    have := List.mem_filter.mp hf
    exact ⟨t, this.1, rfl, of_decide_eq_true this.2⟩

/-- C7 witness: on the one-task pending store, the pass keeps the store,
enqueues at most 20 identifiers and only identifiers of pending tasks. -/
theorem fetcher_frame_witness :
    (fetch_pending_tasks_pass defaultSettings [sampleTask]).1 = [sampleTask] ∧
    (fetch_pending_tasks_pass defaultSettings [sampleTask]).2.length ≤
      2 * defaultSettings.WORKER_POOL_SIZE ∧
    ∀ i ∈ (fetch_pending_tasks_pass defaultSettings [sampleTask]).2,
      ∃ t, t ∈ [sampleTask] ∧ t.id = i ∧ t.status = TaskStatus.PENDING :=
  fetcher_frame defaultSettings [sampleTask]

/-- C8: a dequeued identifier whose task no longer exists, or whose task
is not PENDING, is discarded silently: the store is unchanged and no
commit, sleep or enqueue happens. -/
theorem stale_discard (s : Settings) (store : Store) (tid : Nat)
    (oc : Except String JValue) (c₁ c₂ : Option String) (now : Nat)
    (h : ∀ t, getTask store tid = some t → t.status ≠ TaskStatus.PENDING) :
    process_task s store tid oc c₁ c₂ now = (store, []) := by
  unfold process_task
  cases hg : getTask store tid with
  | none => rfl
  | some t =>
      simp only []
      rw [if_pos (by simpa using h t hg)]

/-- A terminal COMPLETED task used to witness the stale-discard path. -/
def completedSample : Task :=
  { sampleTask with status := TaskStatus.COMPLETED,
                    result := some (JValue.str "done"), completed_at := some 3 }

/-- C8 witness: a worker that dequeues id 1 while the stored task is
COMPLETED returns with the store unchanged and no effects. -/
theorem stale_discard_witness :
    process_task defaultSettings [completedSample] 1 (Except.ok JValue.null)
      none none 9 = ([completedSample], []) :=
  stale_discard defaultSettings [completedSample] 1 (Except.ok JValue.null) none none 9
    (fun t ht => by
      have he : completedSample = t := Option.some.inj ht
      rw [← he]
      decide)

theorem handle_preserves_completedInv (s : Settings) (store : Store) (u : Task)
    (e : String) (now : Nat) (h : ∀ t ∈ store, completedInv t)
    (hu : u.completed_at = none) :
    ∀ t ∈ (handle_task_failure s store u e now).1, completedInv t := by
  unfold handle_task_failure
  by_cases hr : u.retry_count + 1 < s.MAX_RETRIES
  · rw [if_pos hr]
    exact putTask_forall (putTask_forall h (by simp [completedInv, hu]))
      (by simp [completedInv, hu])
  · rw [if_neg hr]
    exact putTask_forall h (by simp [completedInv, hu])

theorem process_preserves_completedInv (s : Settings) (store : Store) (tid : Nat)
    (oc : Except String JValue) (now : Nat) (h : ∀ t ∈ store, completedInv t) :
    ∀ t ∈ (process_task s store tid oc none none now).1, completedInv t := by
  unfold process_task
  cases hg : getTask store tid with
  | none => exact h
  | some task =>
      simp only []
      by_cases hst : task.status = TaskStatus.PENDING
      · rw [if_neg (by simp [hst])]
        have hmem := mem_of_getTask hg
        have hinv := h task hmem
        have hcn : task.completed_at = none := by
          cases hc : task.completed_at with
          | none => rfl
          | some v =>
              exfalso
              have hcomp : task.status = TaskStatus.COMPLETED :=
                hinv.mp (by simp [hc])
              rw [hst] at hcomp
              exact TaskStatus.noConfusion hcomp
        cases oc with
        | ok r =>
            exact putTask_forall (putTask_forall h (by simp [completedInv, hcn]))
              (by simp [completedInv])
        | error e =>
            exact handle_preserves_completedInv s _ _ e now
              (putTask_forall h (by simp [completedInv, hcn])) (by simp [hcn])
      · rw [if_pos (by simp [hst])]
        exact h

/-- C10: in any run of worker iterations from a store in which every task
satisfies `completed_at` set iff status COMPLETED (as freshly created
tasks do), the invariant holds of every task after every iteration: the
success path stamps `completed_at` together with COMPLETED and no failure
path ever sets it, so FAILED tasks have it unset. -/
theorem completed_stamp (s : Settings) (store : Store)
    (atts : List (Nat × Except String JValue × Nat))
    (h : ∀ t ∈ store, completedInv t) :
    ∀ t ∈ runAttempts s store atts, completedInv t := by
  induction atts generalizing store with
  | nil => exact h
  | cons a rest ih =>
      obtain ⟨tid, oc, now⟩ := a
      exact ih _ (process_preserves_completedInv s store tid oc now h)

/-- C10 witness: the fresh task driven to the terminal FAILED state by
three handler failures under max_retries = 3 still satisfies the
invariant — in particular its `completed_at` is unset. -/
theorem completed_stamp_witness :
    completedInv
      { id := 1, task_type := "email",
        payload := JValue.obj [("email", JValue.str "a@b.com")],
        status := TaskStatus.FAILED, result := none,
        error_message := some "boom", retry_count := 3,
        created_at := 0, updated_at := 3, completed_at := none } :=
  completed_stamp defaultSettings [sampleTask]
    [(1, Except.error "boom", 1), (1, Except.error "boom", 2),
     (1, Except.error "boom", 3)]
    (fun t ht => by
      rw [List.mem_singleton.mp ht]
      simp [completedInv, sampleTask])
    _ (List.mem_singleton.mpr rfl)

/-- C2 counterexample: a fresh task that fails once (handler error
"boom") and then completes on the retry ends with status COMPLETED,
`result` set AND `error_message` still set — `result` and `error_message`
are both set, and `error_message` is set while the status is neither
FAILED nor RETRYING, refuting both halves of the claim. -/
theorem mutual_exclusion_counterexample :
    ∃ tF, getTask (process_task defaultSettings
        (process_task defaultSettings [sampleTask] 1 (Except.error "boom") none none 7).1
        1 (Except.ok (execute_task sampleTask)) none none 8).1 1 = some tF ∧
      tF.status = TaskStatus.COMPLETED ∧
      tF.result.isSome = true ∧
      tF.error_message = some "boom" ∧
      ¬ (tF.status = TaskStatus.FAILED ∨ tF.status = TaskStatus.RETRYING) :=
  ⟨_, rfl, rfl, rfl, rfl, by decide⟩

/-- C2 amended: `result` is set together with COMPLETED on the success
path, but the success path never clears `error_message`: after a
retryable failure followed by a successful retry the task is COMPLETED
with `result = some r` and `error_message` still recording the old
failure. -/
theorem result_error_not_exclusive (s : Settings) (t : Task) (e : String)
    (r : JValue) (n₁ n₂ : Nat) (ht : t.status = TaskStatus.PENDING)
    (hlt : t.retry_count + 1 < s.MAX_RETRIES) :
    ∃ tF, getTask (process_task s
        (process_task s [t] t.id (Except.error e) none none n₁).1
        t.id (Except.ok r) none none n₂).1 t.id = some tF ∧
      tF.status = TaskStatus.COMPLETED ∧ tF.result = some r ∧
      tF.error_message = some e ∧ tF.completed_at = some n₂ := by
  rw [fail_step_retry s t e n₁ t.id rfl ht hlt]
  rw [success_step s
        { t with status := TaskStatus.PENDING, retry_count := t.retry_count + 1,
                 error_message := some e, updated_at := n₁ }
        r n₂ t.id rfl rfl]
  exact ⟨_, getTask_singleton, rfl, rfl, rfl, rfl⟩

/-- C2 amended witness: fresh email task, failure then success under the
default configuration. -/
theorem result_error_not_exclusive_witness :
    ∃ tF, getTask (process_task defaultSettings
        (process_task defaultSettings [sampleTask] sampleTask.id
          (Except.error "boom") none none 7).1
        sampleTask.id (Except.ok (JValue.str "ok")) none none 8).1 sampleTask.id = some tF ∧
      tF.status = TaskStatus.COMPLETED ∧ tF.result = some (JValue.str "ok") ∧
      tF.error_message = some "boom" ∧ tF.completed_at = some 8 :=
  result_error_not_exclusive defaultSettings sampleTask "boom" (JValue.str "ok") 7 8
    rfl (by decide)

/-- C3 counterexample: on a fresh task's first (retryable) handler
failure, at the moment the identifier is put on the Dispatch Queue the
last persisted record has status RETRYING, not PENDING — the id is
enqueued while the persisted status is still RETRYING. -/
theorem pending_before_enqueue_counterexample :
    ∃ u, persistedAtFirstEnqueue
        (process_task defaultSettings [sampleTask] 1 (Except.error "boom") none none 7).2
        (some sampleTask) = some u ∧
      u.status = TaskStatus.RETRYING ∧ ¬ u.status = TaskStatus.PENDING :=
  ⟨_, rfl, rfl, by decide⟩

/-- C3 amended: on a retryable failure the Retry Controller persists
RETRYING, sleeps the delay, re-enqueues the identifier while the
persisted status is still RETRYING, and only after the enqueue sets the
status back to PENDING and persists it. -/
theorem enqueue_before_pending_persist (s : Settings) (u : Task) (e : String)
    (now : Nat) (hu : u.status = TaskStatus.PENDING)
    (hlt : u.retry_count + 1 < s.MAX_RETRIES) :
    ∃ tP tR tQ,
      (process_task s [u] u.id (Except.error e) none none now).2 =
        [Event.commit tP, Event.commit tR, Event.sleep s.RETRY_DELAY,
         Event.enqueue u.id, Event.commit tQ] ∧
      tR.status = TaskStatus.RETRYING ∧ tQ.status = TaskStatus.PENDING ∧
      persistedAtFirstEnqueue
        (process_task s [u] u.id (Except.error e) none none now).2 (some u) = some tR := by
  rw [fail_step_retry s u e now u.id rfl hu hlt]
  exact ⟨_, _, _, rfl, rfl, rfl, rfl⟩

/-- C3 amended witness: first failure of the fresh email task under the
default configuration. -/
theorem enqueue_before_pending_persist_witness :
    ∃ tP tR tQ,
      (process_task defaultSettings [sampleTask] sampleTask.id
          (Except.error "boom") none none 7).2 =
        [Event.commit tP, Event.commit tR, Event.sleep 5,
         Event.enqueue sampleTask.id, Event.commit tQ] ∧
      tR.status = TaskStatus.RETRYING ∧ tQ.status = TaskStatus.PENDING ∧
      persistedAtFirstEnqueue
        (process_task defaultSettings [sampleTask] sampleTask.id
          (Except.error "boom") none none 7).2 (some sampleTask) = some tR :=
  enqueue_before_pending_persist defaultSettings sampleTask "boom" 7 rfl (by decide)

theorem handle_task_failure_getTask (s : Settings) (store : Store) (u w : Task)
    (e : String) (now : Nat) (h : getTask store u.id = some w) :
    ∃ t', getTask (handle_task_failure s store u e now).1 u.id = some t' ∧
      t'.retry_count = u.retry_count + 1 ∧ t'.error_message = some e := by
  unfold handle_task_failure
  by_cases hr : u.retry_count + 1 < s.MAX_RETRIES
  · rw [if_pos hr]
    exact ⟨_, getTask_putTask_self (getTask_putTask_self h rfl) rfl, rfl, rfl⟩
  · rw [if_neg hr]
    exact ⟨_, getTask_putTask_self h rfl, rfl, rfl⟩

/-- C4 counterexample: the task handler would succeed, but the store
commit after marking PROCESSING raises a transient infrastructure error
("connection lost"); the error is surfaced to task state anyway — the
persisted record has `retry_count` incremented to 1 and `error_message`
recording the infrastructure error. -/
theorem infra_error_counterexample :
    ∃ tF, getTask (process_task defaultSettings [sampleTask] 1
        (Except.ok (execute_task sampleTask)) (some "connection lost") none 7).1 1 = some tF ∧
      tF.retry_count = 1 ∧
      tF.error_message = some "connection lost" ∧
      ¬ (tF.retry_count = sampleTask.retry_count ∧
         tF.error_message = sampleTask.error_message) :=
  ⟨_, rfl, rfl, rfl, by decide⟩

/-- C4 amended: any exception raised in the worker's try-block after the
task was loaded — a transient store-write failure just like a
handler-raised error — is caught by the same handler and drives the
Retry Controller on the in-flight record: `retry_count` is incremented
and `error_message` records the infrastructure error. -/
theorem infra_error_drives_retry (s : Settings) (store : Store) (tid : Nat)
    (t : Task) (oc : Except String JValue) (c₂ : Option String) (e : String)
    (now : Nat) (hg : getTask store tid = some t)
    (ht : t.status = TaskStatus.PENDING) :
    process_task s store tid oc (some e) c₂ now =
      handle_task_failure s store
        { t with status := TaskStatus.PROCESSING, updated_at := now } e now ∧
    ∃ t', getTask (process_task s store tid oc (some e) c₂ now).1 tid = some t' ∧
      t'.retry_count = t.retry_count + 1 ∧ t'.error_message = some e := by
  have hid : t.id = tid := getTask_eq_id hg
  have hmain : process_task s store tid oc (some e) c₂ now =
      handle_task_failure s store
        { t with status := TaskStatus.PROCESSING, updated_at := now } e now := by
    unfold process_task
    rw [hg]
    simp only []
    rw [if_neg (by simp [ht])]
  refine ⟨hmain, ?_⟩
  rw [hmain]
  have hg' : getTask store
      ({ t with status := TaskStatus.PROCESSING, updated_at := now } : Task).id = some t := by
    show getTask store t.id = some t
    rw [hid]; exact hg
  obtain ⟨t', h1, h2, h3⟩ := handle_task_failure_getTask s store
    { t with status := TaskStatus.PROCESSING, updated_at := now } t e now hg'
  refine ⟨t', ?_, h2, h3⟩
  show getTask _ tid = some t'
  rw [← hid]
  exact h1

/-- C4 amended witness: the fresh email task with a failing PROCESSING
commit under the default configuration. -/
theorem infra_error_drives_retry_witness :
    process_task defaultSettings [sampleTask] 1
        (Except.ok (execute_task sampleTask)) (some "connection lost") none 7 =
      handle_task_failure defaultSettings [sampleTask]
        { sampleTask with status := TaskStatus.PROCESSING, updated_at := 7 }
        "connection lost" 7 ∧
    ∃ t', getTask (process_task defaultSettings [sampleTask] 1
        (Except.ok (execute_task sampleTask)) (some "connection lost") none 7).1 1 = some t' ∧
      t'.retry_count = sampleTask.retry_count + 1 ∧
      t'.error_message = some "connection lost" :=
  infra_error_drives_retry defaultSettings [sampleTask] 1 sampleTask
    (Except.ok (execute_task sampleTask)) none "connection lost" 7 rfl rfl

/-- C5 counterexample: two workers race to claim the single PENDING task
with id 1 under the interleaving load-A, load-B, claim-A, claim-B: both
pass the PENDING check and both proceed to execute the task — it is not
the case that exactly one claim succeeds. -/
theorem atomic_claim_counterexample :
    (runRace 1 7 [false, true, false, true]
        (ClaimPhase.start, ClaimPhase.start, [sampleTask])).1.proceeds = true ∧
    (runRace 1 7 [false, true, false, true]
        (ClaimPhase.start, ClaimPhase.start, [sampleTask])).2.1.proceeds = true :=
  ⟨rfl, rfl⟩

/-- C5 amended: the claim is check-then-act, so mutual exclusion depends
on the interleaving: if both workers load the task before either commits
PROCESSING, both observe PENDING and both proceed to execute it; only
when one worker's claim commit lands before the other's load does the
stale check make exactly one proceed. -/
theorem claim_race (store : Store) (tid now : Nat) (t : Task)
    (hg : getTask store tid = some t) (ht : t.status = TaskStatus.PENDING) :
    ((runRace tid now [false, true, false, true]
        (ClaimPhase.start, ClaimPhase.start, store)).1.proceeds = true ∧
     (runRace tid now [false, true, false, true]
        (ClaimPhase.start, ClaimPhase.start, store)).2.1.proceeds = true) ∧
    ((runRace tid now [false, false, true, true]
        (ClaimPhase.start, ClaimPhase.start, store)).1.proceeds = true ∧
     (runRace tid now [false, false, true, true]
        (ClaimPhase.start, ClaimPhase.start, store)).2.1.proceeds = false) := by
  have hid : t.id = tid := getTask_eq_id hg
  have hg' : getTask (putTask store
      { t with status := TaskStatus.PROCESSING, updated_at := now }) tid =
      some { t with status := TaskStatus.PROCESSING, updated_at := now } :=
    getTask_putTask_self hg hid
  constructor
  · simp [runRace, claimStep, hg, ht, ClaimPhase.proceeds]
  · simp [runRace, claimStep, hg, hg', ht, ClaimPhase.proceeds]

/-- C5 amended witness: the race on the one-task pending store. -/
theorem claim_race_witness :
    ((runRace 1 7 [false, true, false, true]
        (ClaimPhase.start, ClaimPhase.start, [sampleTask])).1.proceeds = true ∧
     (runRace 1 7 [false, true, false, true]
        (ClaimPhase.start, ClaimPhase.start, [sampleTask])).2.1.proceeds = true) ∧
    ((runRace 1 7 [false, false, true, true]
        (ClaimPhase.start, ClaimPhase.start, [sampleTask])).1.proceeds = true ∧
     (runRace 1 7 [false, false, true, true]
        (ClaimPhase.start, ClaimPhase.start, [sampleTask])).2.1.proceeds = false) :=
  claim_race [sampleTask] 1 7 sampleTask rfl rfl

/-- A task persisted in status RETRYING (mid retry-delay window). -/
def retryingSample : Task :=
  { sampleTask with status := TaskStatus.RETRYING,
                    error_message := some "boom", retry_count := 1 }

/-- C9: the delete endpoint's guard only rejects PENDING and PROCESSING,
so a task whose persisted status is RETRYING — a non-terminal state — is
deleted, contradicting the endpoint's own docstring ("only if completed
or failed") and the spec's restriction to terminal-state tasks. -/
theorem delete_retrying_task :
    delete_task [retryingSample] 1 = (DeleteResult.deleted, []) ∧
    retryingSample.status = TaskStatus.RETRYING ∧
    delete_task [{ retryingSample with status := TaskStatus.PENDING }] 1 =
      (DeleteResult.rejected, [{ retryingSample with status := TaskStatus.PENDING }]) ∧
    delete_task [{ retryingSample with status := TaskStatus.PROCESSING }] 1 =
      (DeleteResult.rejected, [{ retryingSample with status := TaskStatus.PROCESSING }]) :=
  ⟨rfl, rfl, rfl, rfl⟩

end TPS
